import Mathlib

/-!
# Verification of the session registry and query executor of `plugin-claudecode`

Shallow embedding of `src/services/claude-code.ts` (class `ClaudeCodeService`)
and the `configSchema` of `src/index.ts`.

Modelling conventions:
* The JS `Map<string, ClaudeCodeSession>` is an association list in insertion
  order (`Map.set` updates in place, `Map.delete` removes the entry,
  iteration is insertion order).
* An `AbortController` is modelled by its observable state: a `Bool` that is
  `true` once `abort()` has fired.  A fresh controller is `false`.
* `Date.now()` and `Math.random().toString(36).substring(2, 9)` are
  environment draws; they are passed in as explicit parameters (`now`,
  `randSuffix`, `genId`).
* JS `x || y` on numbers falls through on `0` (the only falsy integer);
  on optional strings/objects it falls through on absence or `""`.
* TS methods without a `return` statement return `undefined`; such a
  return value is modelled as `none`.
* The streamed external call is modelled by its observable behaviour during
  one invocation: the finite list of messages it emits, then either normal
  termination or a thrown error (cancellation included).
-/

/-- Discriminated message record emitted by the external streaming call
(`SDKMessage`): the service only ever inspects its `type` field. -/
structure SDKMessage where
  type : String
  content : String
deriving Repr, DecidableEq

/-- Enumeration of `permissionMode` values from `QueryOptions`. -/
inductive PermissionMode where
  | default
  | acceptEdits
  | bypassPermissions
  | plan
deriving Repr, DecidableEq

/-- Session status enumeration (`'idle' | 'running' | 'completed' | 'error'`). -/
inductive SessionStatus where
  | idle
  | running
  | completed
  | error
deriving Repr, DecidableEq

/-- Embedding of `ClaudeCodeSession` from `src/services/claude-code.ts`.  Timestamps are
milliseconds.  `abortFired` is the observable state of the session's
`AbortController`. -/
structure ClaudeCodeSession where
  id : String
  startedAt : Nat
  lastActivityAt : Nat
  messages : List SDKMessage
  abortFired : Bool
  status : SessionStatus
  workingDirectory : Option String
deriving Repr, DecidableEq

/-- The `sessions : Map<string, ClaudeCodeSession>` field, in insertion
order. -/
abbrev Registry := List (String × ClaudeCodeSession)

/-- Embedding of `QueryOptions` from `src/services/claude-code.ts`; absent fields are
`none`. -/
structure QueryOptions where
  sessionId : Option String := none
  workingDirectory : Option String := none
  maxTurns : Option Int := none
  systemPrompt : Option String := none
  allowedTools : Option (List String) := none
  disallowedTools : Option (List String) := none
  permissionMode : Option PermissionMode := none
  outputFormat : Option String := none
  verbose : Option Bool := none
deriving Repr, DecidableEq

/-- JS `v || d` on an optional number: falls through exactly on absence or
`0` (the falsy integer). -/
def jsOrOptInt (v : Option Int) (d : Int) : Int :=
  match v with
  | none => d
  | some m => if m = 0 then d else m

/-- JS `v || d` on a number already known to be present. -/
def jsOrInt (v : Int) (d : Int) : Int :=
  if v = 0 then d else v

/-- JS `v || d` on an optional string: falls through on absence or `""`. -/
def jsOrStr (v : Option String) (d : String) : String :=
  match v with
  | none => d
  | some s => if s = "" then d else s

/-- The `CLAUDE_CODE_CONFIG` object read in the constructor
(`runtime.getSetting('CLAUDE_CODE_CONFIG') || {}`). -/
structure PluginConfig where
  maxTurnsCfg : Option Int := none
  permissionModeCfg : Option PermissionMode := none
deriving Repr, DecidableEq

/-- Shape of `this.defaultOptions` as built by the constructor: both fields always
end up present. -/
structure ServiceDefaults where
  maxTurns : Int
  permissionMode : PermissionMode
deriving Repr, DecidableEq

/-- Constructor lines 42-46: `maxTurns: config.MAX_TURNS || 10`,
`permissionMode: config.PERMISSION_MODE || 'acceptEdits'` (the config object
itself defaults to `{}` when the setting is absent). -/
def mkDefaultOptions (config : Option PluginConfig) : ServiceDefaults :=
  let c := config.getD {}
  { maxTurns := jsOrOptInt c.maxTurnsCfg 10
    permissionMode := c.permissionModeCfg.getD .acceptEdits }

/-- Transform of the `MAX_TURNS` field of `configSchema` in `src/index.ts`:
`.optional().default(10).transform(val => Math.max(1, Math.min(val, 50)))`. -/
def configSchemaMaxTurns (v : Option Int) : Int :=
  max 1 (min (v.getD 10) 50)

/-- Lookup `this.sessions.get(id)` on the association list. -/
def findSession (reg : Registry) (id : String) : Option ClaudeCodeSession :=
  match reg with
  | [] => none
  | (k, v) :: rest => if k = id then some v else findSession rest id

/-- Insertion `this.sessions.set(id, v)`: updates an existing key in place, otherwise
appends (JS `Map` keeps the original insertion position on update). -/
def setSession (reg : Registry) (id : String) (v : ClaudeCodeSession) : Registry :=
  match reg with
  | [] => [(id, v)]
  | (k, w) :: rest =>
      if k = id then (k, v) :: rest else (k, w) :: setSession rest id v

/-- Removal `this.sessions.delete(id)` (keys are unique in a JS `Map`, so removing
every entry with this key coincides with removing the single one). -/
def deleteSession (reg : Registry) (id : String) : Registry :=
  reg.filter (fun p => p.1 ≠ id)

/-- Method `getSession(sessionId)`: pure lookup (lines 153-155). -/
def getSession (reg : Registry) (sessionId : String) : Option ClaudeCodeSession :=
  findSession reg sessionId

/-- Method `createSession(sessionId?, workingDirectory?)` (lines 160-176):
initializes `status='idle'`, empty transcript, a fresh `AbortController`,
stamps both timestamps with `new Date()`, and inserts into the table.
`genId` is the value `this.generateSessionId()` would produce for this
call. -/
def createSession (reg : Registry) (now : Nat) (genId : String)
    (sessionId : Option String) (workingDirectory : Option String) :
    ClaudeCodeSession × Registry :=
  let id := jsOrStr sessionId genId
  let session : ClaudeCodeSession :=
    { id := id
      startedAt := now
      lastActivityAt := now
      messages := []
      abortFired := false
      status := .idle
      workingDirectory := workingDirectory }
  (session, setSession reg id session)

/-- Lines 90-97 of `executeQuery`: look the session up, creating it when
absent (`createSession` already inserts; line 96 sets the same entry
again). -/
def resolveSession (reg : Registry) (now : Nat) (genId : String)
    (sessionId : String) (workingDirectory : Option String) :
    ClaudeCodeSession × Registry :=
  match findSession reg sessionId with
  | some s => (s, reg)
  | none =>
      let p := createSession reg now genId (some sessionId) workingDirectory
      (p.1, setSession p.2 sessionId p.1)

/-- The object spread `{...this.defaultOptions, ...options,
abortController: session.abortController, cwd: session.workingDirectory}`
(lines 107-112): a field explicitly present in `options` overrides the
default, field by field. -/
structure MergedOptions where
  sessionId : Option String
  workingDirectory : Option String
  maxTurns : Int
  systemPrompt : Option String
  allowedTools : Option (List String)
  disallowedTools : Option (List String)
  permissionMode : PermissionMode
  outputFormat : Option String
  verbose : Option Bool
  abortFired : Bool
  cwd : Option String
deriving Repr, DecidableEq

def mergeOptions (d : ServiceDefaults) (o : QueryOptions)
    (session : ClaudeCodeSession) : MergedOptions :=
  { sessionId := o.sessionId
    workingDirectory := o.workingDirectory
    maxTurns := (o.maxTurns).getD d.maxTurns
    systemPrompt := o.systemPrompt
    allowedTools := o.allowedTools
    disallowedTools := o.disallowedTools
    permissionMode := (o.permissionMode).getD d.permissionMode
    outputFormat := o.outputFormat
    verbose := o.verbose
    abortFired := session.abortFired
    cwd := session.workingDirectory }

/-- The argument actually passed to the external `query(...)` call
(lines 121-127).  The source forwards exactly the prompt, the session's
abort controller, and `options: { maxTurns: queryOptions.maxTurns || 10 }`
— nothing else from the merged configuration. -/
structure QueryInvocation where
  prompt : String
  abortFired : Bool
  maxTurns : Int
deriving Repr, DecidableEq

/-- Observable behaviour of the external streaming call during one
invocation: the messages emitted, then normal termination (`err = none`)
or a thrown/rejected error (`err = some e`, cancellation included). -/
structure StreamResult where
  emitted : List SDKMessage
  err : Option String
deriving Repr, DecidableEq

/-- Result of one `executeQuery` invocation: the returned value (or the
re-thrown error), the registry afterwards, and the payload that was handed
to the external call. -/
structure ExecResult where
  result : Except String (List SDKMessage)
  registry : Registry
  invocation : QueryInvocation
deriving Repr

/-- Method `executeQuery(prompt, options)` (lines 89-148).  The session is marked
`running` and `lastActivityAt` is stamped; every emitted message is pushed
both onto the local `messages` array and onto the session transcript; on
normal stream termination `status='completed'` and the local array is
returned; on a thrown error `status='error'` and the error is re-thrown. -/
def executeQuery (d : ServiceDefaults) (reg : Registry) (now : Nat)
    (genId : String) (prompt : String) (options : QueryOptions)
    (stream : StreamResult) : ExecResult :=
  let sessionId := jsOrStr options.sessionId genId
  let r := resolveSession reg now genId sessionId options.workingDirectory
  let session1 := { r.1 with status := SessionStatus.running, lastActivityAt := now }
  let reg2 := setSession r.2 sessionId session1
  let merged := mergeOptions d options session1
  let invocation : QueryInvocation :=
    { prompt := prompt
      abortFired := merged.abortFired
      maxTurns := jsOrInt merged.maxTurns 10 }
  let session2 := { session1 with messages := session1.messages ++ stream.emitted }
  match stream.err with
  | none =>
      { result := .ok stream.emitted
        registry := setSession reg2 sessionId { session2 with status := SessionStatus.completed }
        invocation := invocation }
  | some e =>
      { result := .error e
        registry := setSession reg2 sessionId { session2 with status := SessionStatus.error }
        invocation := invocation }

/-- The eviction condition of lines 195-196: `age > maxAge && session.status
!== 'running'`, with `age = now - session.lastActivityAt` computed on JS
numbers (hence over `Int`). -/
def staleRemovable (now : Nat) (maxAge : Int) (s : ClaudeCodeSession) : Bool :=
  ((now : Int) - (s.lastActivityAt : Int) > maxAge) && !(s.status = SessionStatus.running)

/-- Method `cleanupSessions(maxAge)` (lines 190-209): first collects the ids of
every session satisfying the eviction condition, then deletes them one by
one.  The TS method has no `return` statement, so its returned value is
`undefined`, modelled as `none : Option Nat` (the count it logs is never
returned). -/
def cleanupSessions (reg : Registry) (now : Nat) (maxAge : Int) :
    Registry × Option Nat :=
  let sessionsToRemove :=
    (reg.filter (fun p => staleRemovable now maxAge p.2)).map (fun p => p.1)
  (sessionsToRemove.foldl deleteSession reg, none)

/-- Method `stop()` (lines 71-84): aborts the controller of every `running`
session, then clears the table unconditionally.  Only the registry state is
observable afterwards: it is empty (the aborted sessions are gone from
it). -/
def stopService (_reg : Registry) : Registry := []

/-- Shape of the `getStatus()` return object (lines 214-224). -/
structure ServiceStatus where
  totalSessions : Nat
  activeSessions : Nat
  idleSessions : Nat
  completedSessions : Nat
  errorSessions : Nat
  apiKeyConfigured : Bool
deriving Repr, DecidableEq

/-- Method `getStatus()`: counts the registry entries per status bucket and reports
whether `ANTHROPIC_API_KEY` is present (`apiKeyPresent` models
`!!process.env.ANTHROPIC_API_KEY`).  A pure function of the registry: no
session and no registry state is mutated. -/
def getStatus (reg : Registry) (apiKeyPresent : Bool) : ServiceStatus :=
  let sessions := reg.map (fun p => p.2)
  { totalSessions := sessions.length
    activeSessions := (sessions.filter (fun s => s.status = SessionStatus.running)).length
    idleSessions := (sessions.filter (fun s => s.status = SessionStatus.idle)).length
    completedSessions := (sessions.filter (fun s => s.status = SessionStatus.completed)).length
    errorSessions := (sessions.filter (fun s => s.status = SessionStatus.error)).length
    apiKeyConfigured := apiKeyPresent }

/-- Decimal digit character, `'0'`-`'9'`. -/
def decDigit : Nat → Char
  | 0 => '0'
  | 1 => '1'
  | 2 => '2'
  | 3 => '3'
  | 4 => '4'
  | 5 => '5'
  | 6 => '6'
  | 7 => '7'
  | 8 => '8'
  | 9 => '9'
  | _ => '*'

/-- Decimal rendering of a natural number, most significant digit first:
the string the template literal interpolation of `Date.now()` produces. -/
def natDecimal (n : Nat) : List Char :=
  if _h : n < 10 then [decDigit n]
  else natDecimal (n / 10) ++ [decDigit (n % 10)]
decreasing_by exact Nat.div_lt_self (by omega) (by omega)

/-- Method `generateSessionId()` (lines 229-231):
`` `claude-${Date.now()}-${Math.random().toString(36).substring(2, 9)}` ``.
`nowMillis` is the `Date.now()` draw and `randSuffix` the
`Math.random().toString(36).substring(2, 9)` draw of this call (a string of
base-36 digit characters, never containing `'-'`). -/
def generateSessionId (nowMillis : Nat) (randSuffix : String) : String :=
  "claude-" ++ String.mk (natDecimal nowMillis) ++ "-" ++ randSuffix

/-- One externally triggered operation on the service, carrying its
environment draws.  These are all the mutation points of the session
table. -/
inductive ServiceOp where
  | create (now : Nat) (genId : String) (sessionId workingDirectory : Option String)
  | exec (now : Nat) (genId : String) (prompt : String)
      (options : QueryOptions) (stream : StreamResult)
  | cleanup (now : Nat) (maxAge : Int)
  | stopAll
deriving Repr

/-- Effect of one operation on the registry. -/
def applyOp (d : ServiceDefaults) (reg : Registry) : ServiceOp → Registry
  | .create now genId sessionId workingDirectory =>
      (createSession reg now genId sessionId workingDirectory).2
  | .exec now genId prompt options stream =>
      (executeQuery d reg now genId prompt options stream).registry
  | .cleanup now maxAge => (cleanupSessions reg now maxAge).1
  | .stopAll => stopService reg

/-- Registry reached from service start (empty table) after a sequence of
operations. -/
def runOps (d : ServiceDefaults) (ops : List ServiceOp) : Registry :=
  ops.foldl (applyOp d) []

/-- Every session stored in the registry has an unfired cancellation
handle. -/
def HandlesFresh (reg : Registry) : Prop :=
  ∀ p ∈ reg, p.2.abortFired = false

/-- Transcript of the session `sid` stored in the registry (empty when the
session does not exist yet). -/
def priorTranscript (reg : Registry) (sid : String) : List SDKMessage :=
  match findSession reg sid with
  | some s => s.messages
  | none => []

/-- Value of a decimal digit string, used to show `natDecimal` is
injective. -/
def decValue (l : List Char) : Nat :=
  l.foldl (fun a c => a * 10 + (c.toNat - 48)) 0

/-! ## Registry lemmas -/

theorem findSession_setSession_same (reg : Registry) (id : String)
    (v : ClaudeCodeSession) : findSession (setSession reg id v) id = some v := by
  induction reg with
  | nil => simp [setSession, findSession]
  | cons p rest ih =>
      obtain ⟨k, w⟩ := p
      by_cases h : k = id <;> simp [setSession, findSession, h, ih]

theorem mem_setSession {p : String × ClaudeCodeSession} {reg : Registry}
    {id : String} {v : ClaudeCodeSession} (hp : p ∈ setSession reg id v) :
    p = (id, v) ∨ p ∈ reg := by
  induction reg with
  | nil => exact Or.inl (by simpa [setSession] using hp)
  | cons q rest ih =>
      obtain ⟨k, w⟩ := q
      simp only [setSession] at hp
      split at hp
      next h =>
        rcases List.mem_cons.1 hp with h1 | h2
        · subst h
          exact Or.inl h1
        · exact Or.inr (List.mem_cons_of_mem _ h2)
      next h =>
        rcases List.mem_cons.1 hp with h1 | h2
        · exact Or.inr (by simp [h1])
        · rcases ih h2 with h3 | h4
          · exact Or.inl h3
          · exact Or.inr (List.mem_cons_of_mem _ h4)

theorem findSession_mem {reg : Registry} {id : String} {s : ClaudeCodeSession}
    (h : findSession reg id = some s) : (id, s) ∈ reg := by
  induction reg with
  | nil => simp [findSession] at h
  | cons p rest ih =>
      obtain ⟨k, w⟩ := p
      simp only [findSession] at h
      split at h
      next hk =>
        injection h with h2
        subst hk
        subst h2
        exact List.mem_cons_self _ _
      next hk =>
        exact List.mem_cons_of_mem _ (ih h)

theorem mem_deleteSession {p : String × ClaudeCodeSession} {reg : Registry}
    {id : String} (hp : p ∈ deleteSession reg id) : p ∈ reg :=
  (List.mem_filter.1 hp).1

theorem mem_foldl_deleteSession {p : String × ClaudeCodeSession}
    (ids : List String) (reg : Registry)
    (hp : p ∈ ids.foldl deleteSession reg) : p ∈ reg := by
  induction ids generalizing reg with
  | nil => simpa using hp
  | cons i rest ih =>
      simp only [List.foldl_cons] at hp
      exact mem_deleteSession (ih _ hp)

theorem resolveSession_messages (reg : Registry) (now : Nat) (genId : String)
    (sid : String) (wd : Option String) :
    (resolveSession reg now genId sid wd).1.messages = priorTranscript reg sid := by
  cases h : findSession reg sid <;>
    simp [resolveSession, createSession, priorTranscript, h]

theorem resolveSession_abortFired_of_fresh {reg : Registry} (now : Nat)
    (genId : String) (sid : String) (wd : Option String)
    (hreg : HandlesFresh reg) :
    (resolveSession reg now genId sid wd).1.abortFired = false := by
  cases h : findSession reg sid with
  | none => simp [resolveSession, createSession, h]
  | some s =>
      have hm := findSession_mem h
      simpa [resolveSession, h] using hreg _ hm

/-- The payload handed to the external `query(...)` call, for any stream
outcome: exactly the prompt, the resolved session's abort controller, and
the merged `maxTurns` behind a JS `|| 10` fallback. -/
theorem executeQuery_invocation_eq (d : ServiceDefaults) (reg : Registry)
    (now : Nat) (genId : String) (prompt : String) (options : QueryOptions)
    (stream : StreamResult) :
    (executeQuery d reg now genId prompt options stream).invocation =
      { prompt := prompt
        abortFired := (resolveSession reg now genId (jsOrStr options.sessionId genId)
            options.workingDirectory).1.abortFired
        maxTurns := jsOrInt ((options.maxTurns).getD d.maxTurns) 10 } := by
  cases h : stream.err <;> simp [executeQuery, mergeOptions, h]

/-- C1 — On a finite, error-free stream, `executeQuery` returns exactly the
messages emitted during this invocation, in emission order (not the whole
historical transcript), appends them to the session transcript, and leaves
the session `completed`. -/
theorem executeQuery_success_returns_emitted (d : ServiceDefaults)
    (reg : Registry) (now : Nat) (genId : String) (prompt : String)
    (options : QueryOptions) (stream : StreamResult)
    (hok : stream.err = none) :
    (executeQuery d reg now genId prompt options stream).result
        = Except.ok stream.emitted ∧
    ∃ s, getSession (executeQuery d reg now genId prompt options stream).registry
            (jsOrStr options.sessionId genId) = some s ∧
         s.status = SessionStatus.completed ∧
         s.messages = priorTranscript reg (jsOrStr options.sessionId genId)
            ++ stream.emitted := by
  obtain ⟨em, err⟩ := stream
  simp only at hok
  subst hok
  refine ⟨rfl, ⟨_, findSession_setSession_same _ _ _, rfl, ?_⟩⟩
  · simpa using congrArg (· ++ em) (resolveSession_messages reg now genId
      (jsOrStr options.sessionId genId) options.workingDirectory)

/-- Witness for C1 at the spec's happy-path scenario: `executeQuery("add a
README", {})` with a mock stream emitting two assistant messages. -/
theorem executeQuery_success_returns_emitted_witness :
    (executeQuery (mkDefaultOptions none) [] 0 "claude-0-abc" "add a README" {}
        ⟨[⟨"assistant", "a1"⟩, ⟨"assistant", "a2"⟩], none⟩).result
        = Except.ok [⟨"assistant", "a1"⟩, ⟨"assistant", "a2"⟩] ∧
    ∃ s, getSession (executeQuery (mkDefaultOptions none) [] 0 "claude-0-abc"
            "add a README" {}
            ⟨[⟨"assistant", "a1"⟩, ⟨"assistant", "a2"⟩], none⟩).registry
          "claude-0-abc" = some s ∧
         s.status = SessionStatus.completed ∧
         s.messages = [⟨"assistant", "a1"⟩, ⟨"assistant", "a2"⟩] :=
  executeQuery_success_returns_emitted (mkDefaultOptions none) [] 0 "claude-0-abc"
    "add a README" {} ⟨[⟨"assistant", "a1"⟩, ⟨"assistant", "a2"⟩], none⟩ rfl

/-- C2 — When the external stream throws after emitting `k` messages,
`executeQuery` marks the session `error`, re-throws the error (no message
list is returned), and the `k` messages appended before the failure remain
observable through `getSession`. -/
theorem executeQuery_failure_rethrows_and_keeps_transcript (d : ServiceDefaults)
    (reg : Registry) (now : Nat) (genId : String) (prompt : String)
    (options : QueryOptions) (stream : StreamResult) (e : String)
    (herr : stream.err = some e) :
    (executeQuery d reg now genId prompt options stream).result
        = Except.error e ∧
    ∃ s, getSession (executeQuery d reg now genId prompt options stream).registry
            (jsOrStr options.sessionId genId) = some s ∧
         s.status = SessionStatus.error ∧
         s.messages = priorTranscript reg (jsOrStr options.sessionId genId)
            ++ stream.emitted := by
  obtain ⟨em, err⟩ := stream
  simp only at herr
  subst herr
  refine ⟨rfl, ⟨_, findSession_setSession_same _ _ _, rfl, ?_⟩⟩
  · simpa using congrArg (· ++ em) (resolveSession_messages reg now genId
      (jsOrStr options.sessionId genId) options.workingDirectory)

/-- Witness for C2 at the spec's failing-call scenario: a mock stream that
rejects after emitting one message leaves a transcript of length 1, the
session in `error`, and the rejection propagated. -/
theorem executeQuery_failure_rethrows_and_keeps_transcript_witness :
    (executeQuery (mkDefaultOptions none) [] 0 "claude-0-abc" "p" {}
        ⟨[⟨"assistant", "a1"⟩], some "boom"⟩).result = Except.error "boom" ∧
    ∃ s, getSession (executeQuery (mkDefaultOptions none) [] 0 "claude-0-abc" "p" {}
            ⟨[⟨"assistant", "a1"⟩], some "boom"⟩).registry
          "claude-0-abc" = some s ∧
         s.status = SessionStatus.error ∧
         s.messages = [⟨"assistant", "a1"⟩] :=
  executeQuery_failure_rethrows_and_keeps_transcript (mkDefaultOptions none) [] 0
    "claude-0-abc" "p" {} ⟨[⟨"assistant", "a1"⟩], some "boom"⟩ "boom" rfl

/-- C3 (counterexample) — The external streaming call is NOT invoked with
the whole merged configuration: at a concrete input, two `executeQuery`
calls whose options differ in `permissionMode`, `systemPrompt` and
`allowedTools` (so their field-by-field merges differ) hand the external
call identical payloads, because lines 121-127 forward only the prompt, the
abort controller and `maxTurns`. -/
theorem executeQuery_invocation_ignores_merged_fields :
    (executeQuery (mkDefaultOptions none) [] 0 "claude-0-abc" "p"
        { permissionMode := some PermissionMode.plan,
          systemPrompt := some "be terse",
          allowedTools := some ["Bash"] } ⟨[], none⟩).invocation
      = (executeQuery (mkDefaultOptions none) [] 0 "claude-0-abc" "p"
          {} ⟨[], none⟩).invocation ∧
    mergeOptions (mkDefaultOptions none)
        { permissionMode := some PermissionMode.plan,
          systemPrompt := some "be terse",
          allowedTools := some ["Bash"] }
        (createSession [] 0 "claude-0-abc" none none).1
      ≠ mergeOptions (mkDefaultOptions none) {}
          (createSession [] 0 "claude-0-abc" none none).1 := by
  constructor
  · rfl
  · simp [mergeOptions]

/-- C3 (amended) — `executeQuery` computes the field-by-field merge of
`options` over the service defaults, but the external call receives only
the prompt, the resolved session's cancellation handle, and the merged
`maxTurns` behind a `|| 10` fallback; the invocation payload is invariant
under `permissionMode`, `systemPrompt`, tool allow/deny lists,
`outputFormat` and `verbose`. -/
theorem executeQuery_forwards_only_prompt_handle_maxTurns
    (d : ServiceDefaults) (reg : Registry) (now : Nat) (genId : String)
    (prompt : String) (o : QueryOptions) (stream : StreamResult)
    (pm : Option PermissionMode) (sp : Option String)
    (atl dtl : Option (List String)) (ofmt : Option String)
    (vb : Option Bool) :
    (executeQuery d reg now genId prompt
        { o with permissionMode := pm, systemPrompt := sp,
                 allowedTools := atl, disallowedTools := dtl,
                 outputFormat := ofmt, verbose := vb } stream).invocation
      = (executeQuery d reg now genId prompt o stream).invocation ∧
    (executeQuery d reg now genId prompt o stream).invocation.prompt = prompt ∧
    (executeQuery d reg now genId prompt o stream).invocation.abortFired
      = (resolveSession reg now genId (jsOrStr o.sessionId genId)
          o.workingDirectory).1.abortFired ∧
    (executeQuery d reg now genId prompt o stream).invocation.maxTurns
      = jsOrInt ((o.maxTurns).getD d.maxTurns) 10 := by
  refine ⟨?_, ?_, ?_, ?_⟩ <;>
    simp [executeQuery_invocation_eq]

/-- C6 (counterexample) — `executeQuery` with `options.maxTurns = 100`
hands the external call `maxTurns = 100`: the value actually used is not
clamped to `[1, 50]`. -/
theorem executeQuery_maxTurns_unclamped_above_50 :
    (executeQuery (mkDefaultOptions none) [] 0 "claude-0-abc" "p"
        { maxTurns := some 100 } ⟨[], none⟩).invocation.maxTurns = 100 ∧
    ¬ (executeQuery (mkDefaultOptions none) [] 0 "claude-0-abc" "p"
        { maxTurns := some 100 } ⟨[], none⟩).invocation.maxTurns ≤ 50 := by
  refine ⟨rfl, ?_⟩
  intro h
  rw [show (executeQuery (mkDefaultOptions none) [] 0 "claude-0-abc" "p"
      { maxTurns := some 100 } ⟨[], none⟩).invocation.maxTurns = 100 from rfl] at h
  omega

/-- C6 (amended) — The `[1, 50]` clamp exists only in the plugin config
schema (`src/index.ts`) for the service-level `MAX_TURNS` default; the
`maxTurns` actually used for the external call is the merged value behind a
`|| 10` fallback, with no clamping of per-call values. -/
theorem maxTurns_clamped_only_in_configSchema :
    (∀ v : Option Int, 1 ≤ configSchemaMaxTurns v ∧ configSchemaMaxTurns v ≤ 50) ∧
    (∀ (d : ServiceDefaults) (reg : Registry) (now : Nat) (genId : String)
        (prompt : String) (o : QueryOptions) (stream : StreamResult),
      (executeQuery d reg now genId prompt o stream).invocation.maxTurns
        = jsOrInt ((o.maxTurns).getD d.maxTurns) 10) := by
  constructor
  · intro v
    constructor
    · exact le_max_left 1 _
    · simp only [configSchemaMaxTurns]
      rcases le_total (v.getD 10) 50 with h | h <;>
        simp only [min_eq_left h, min_eq_right h] <;> omega
  · intro d reg now genId prompt o stream
    simp [executeQuery_invocation_eq]

/-- C8 — `createSession` returns a session with `status='idle'`, an empty
transcript, a fresh (unfired) cancellation handle, both timestamps stamped,
the caller's working directory, and the id `sessionId || generateSessionId()`
(so a generated id when none is supplied); it inserts the session into the
registry table, overwriting any prior entry with the same id. -/
theorem createSession_initializes_and_overwrites (reg : Registry) (now : Nat)
    (genId : String) (sessionId : Option String) (wd : Option String) :
    (createSession reg now genId sessionId wd).1.status = SessionStatus.idle ∧
    (createSession reg now genId sessionId wd).1.messages = [] ∧
    (createSession reg now genId sessionId wd).1.abortFired = false ∧
    (createSession reg now genId sessionId wd).1.id = jsOrStr sessionId genId ∧
    jsOrStr none genId = genId ∧
    (createSession reg now genId sessionId wd).1.startedAt = now ∧
    (createSession reg now genId sessionId wd).1.lastActivityAt = now ∧
    (createSession reg now genId sessionId wd).1.workingDirectory = wd ∧
    findSession (createSession reg now genId sessionId wd).2
        (jsOrStr sessionId genId)
      = some (createSession reg now genId sessionId wd).1 := by
  refine ⟨rfl, rfl, rfl, rfl, rfl, rfl, rfl, rfl, ?_⟩
  exact findSession_setSession_same _ _ _

theorem length_eq_sum_status_filters (l : List ClaudeCodeSession) :
    l.length
      = (l.filter (fun s => s.status = SessionStatus.idle)).length
        + (l.filter (fun s => s.status = SessionStatus.running)).length
        + (l.filter (fun s => s.status = SessionStatus.completed)).length
        + (l.filter (fun s => s.status = SessionStatus.error)).length := by
  induction l with
  | nil => simp
  | cons s rest ih =>
      cases h : s.status <;> simp [List.filter_cons, h, ih] <;> omega

/-- C9 — `getStatus` reports `totalSessions` equal to the sum of the idle,
running (`activeSessions`), completed and error counts, for every registry
state, together with the credential-presence boolean; it is a pure function
of the registry (no session or registry state is mutated). -/
theorem getStatus_total_eq_sum (reg : Registry) (apiKeyPresent : Bool) :
    (getStatus reg apiKeyPresent).totalSessions
      = (getStatus reg apiKeyPresent).idleSessions
        + (getStatus reg apiKeyPresent).activeSessions
        + (getStatus reg apiKeyPresent).completedSessions
        + (getStatus reg apiKeyPresent).errorSessions ∧
    (getStatus reg apiKeyPresent).apiKeyConfigured = apiKeyPresent := by
  refine ⟨?_, rfl⟩
  simpa [getStatus] using length_eq_sum_status_filters (reg.map (fun p => p.2))

/-- C10 — When `options.maxTurns` is absent or `0` and no service-level
`MAX_TURNS` is configured, the external call is invoked with
`maxTurns = 10` (the JS falsy fallback), never with `0`. -/
theorem executeQuery_maxTurns_falsy_fallback (config : Option PluginConfig)
    (reg : Registry) (now : Nat) (genId : String) (prompt : String)
    (options : QueryOptions) (stream : StreamResult)
    (hcfg : (config.getD {}).maxTurnsCfg = none)
    (hopt : options.maxTurns = none ∨ options.maxTurns = some 0) :
    (executeQuery (mkDefaultOptions config) reg now genId prompt options
        stream).invocation.maxTurns = 10 := by
  rcases hopt with h | h <;>
    simp [executeQuery_invocation_eq, mkDefaultOptions, hcfg, h, jsOrOptInt, jsOrInt]

/-- Witness for C10: no `CLAUDE_CODE_CONFIG` at all and `maxTurns: 0` in the
per-call options still yield an external call with `maxTurns = 10`. -/
theorem executeQuery_maxTurns_falsy_fallback_witness :
    (executeQuery (mkDefaultOptions none) [] 0 "claude-0-abc" "p"
        { maxTurns := some 0 } ⟨[], none⟩).invocation.maxTurns = 10 :=
  executeQuery_maxTurns_falsy_fallback none [] 0 "claude-0-abc" "p"
    { maxTurns := some 0 } ⟨[], none⟩ rfl (Or.inr rfl)

theorem handlesFresh_setSession {reg : Registry} {id : String}
    {v : ClaudeCodeSession} (h : HandlesFresh reg) (hv : v.abortFired = false) :
    HandlesFresh (setSession reg id v) := by
  intro p hp
  rcases mem_setSession hp with h1 | h2
  · subst h1
    exact hv
  · exact h p h2

theorem handlesFresh_createSession {reg : Registry} {now : Nat}
    {genId : String} {sid wd : Option String} (h : HandlesFresh reg) :
    HandlesFresh (createSession reg now genId sid wd).2 :=
  handlesFresh_setSession h rfl

theorem handlesFresh_resolveSession_snd (reg : Registry) (now : Nat)
    (genId sid : String) (wd : Option String) (h : HandlesFresh reg) :
    HandlesFresh (resolveSession reg now genId sid wd).2 := by
  cases hf : findSession reg sid with
  | some s => simpa [resolveSession, hf] using h
  | none =>
      simp only [resolveSession, hf]
      exact handlesFresh_setSession (handlesFresh_createSession h) rfl

theorem handlesFresh_executeQuery {d : ServiceDefaults} {reg : Registry}
    {now : Nat} {genId prompt : String} {o : QueryOptions} {st : StreamResult}
    (h : HandlesFresh reg) :
    HandlesFresh (executeQuery d reg now genId prompt o st).registry := by
  have hr2 := handlesFresh_resolveSession_snd reg now genId
    (jsOrStr o.sessionId genId) o.workingDirectory h
  have hfst := resolveSession_abortFired_of_fresh now genId
    (jsOrStr o.sessionId genId) o.workingDirectory h
  cases he : st.err with
  | none =>
      simp only [executeQuery, he]
      exact handlesFresh_setSession (handlesFresh_setSession hr2 hfst) hfst
  | some e =>
      simp only [executeQuery, he]
      exact handlesFresh_setSession (handlesFresh_setSession hr2 hfst) hfst

theorem handlesFresh_cleanup {reg : Registry} {now : Nat} {ma : Int}
    (h : HandlesFresh reg) : HandlesFresh (cleanupSessions reg now ma).1 :=
  fun p hp => h p (mem_foldl_deleteSession _ _ hp)

theorem handlesFresh_applyOp (d : ServiceDefaults) {reg : Registry}
    (h : HandlesFresh reg) (op : ServiceOp) : HandlesFresh (applyOp d reg op) := by
  cases op with
  | create now genId sid wd => exact handlesFresh_createSession h
  | exec now genId prompt o st => exact handlesFresh_executeQuery h
  | cleanup now ma => exact handlesFresh_cleanup h
  | stopAll =>
      intro p hp
      simp [applyOp, stopService] at hp

/-- Every registry reachable from service start keeps only sessions whose
cancellation handle has not fired: the only operation that fires handles
(`stop`) also clears the whole table. -/
theorem handlesFresh_runOps (d : ServiceDefaults) (ops : List ServiceOp) :
    HandlesFresh (runOps d ops) := by
  suffices h : ∀ reg, HandlesFresh reg → HandlesFresh (ops.foldl (applyOp d) reg) by
    refine h [] ?_
    intro p hp
    simp at hp
  induction ops with
  | nil =>
      intro reg h
      simpa using h
  | cons op rest ih =>
      intro reg h
      exact ih _ (handlesFresh_applyOp d h op)

/-- C4 — No `executeQuery` invocation ever runs a query against a session
whose cancellation handle has fired: in every registry reachable from
service start by any sequence of create/execute/cleanup/stop operations,
the handle passed to the external call is unfired.  (Firing handles happens
only inside `stop()`, which clears the table, so any later query on the
same identity recreates the session with a fresh handle.) -/
theorem executeQuery_never_uses_fired_handle (d : ServiceDefaults)
    (ops : List ServiceOp) (now : Nat) (genId : String) (prompt : String)
    (options : QueryOptions) (stream : StreamResult) :
    (executeQuery d (runOps d ops) now genId prompt options
        stream).invocation.abortFired = false := by
  rw [executeQuery_invocation_eq]
  exact resolveSession_abortFired_of_fresh now genId
    (jsOrStr options.sessionId genId) options.workingDirectory
    (handlesFresh_runOps d ops)

theorem foldl_deleteSession_eq_filter (ids : List String) (reg : Registry) :
    ids.foldl deleteSession reg
      = reg.filter (fun p => decide (p.1 ∉ ids)) := by
  induction ids generalizing reg with
  | nil => simp
  | cons i rest ih =>
      simp only [List.foldl_cons, ih, deleteSession, List.filter_filter]
      refine List.filter_congr ?_
      intro p hp
      by_cases h1 : p.1 = i <;> by_cases h2 : p.1 ∈ rest <;> simp [h1, h2]

theorem key_inj_of_nodup {reg : Registry} (hnodup : (reg.map Prod.fst).Nodup)
    {p q : String × ClaudeCodeSession} (hp : p ∈ reg) (hq : q ∈ reg)
    (hk : p.1 = q.1) : p = q :=
  List.inj_on_of_nodup_map hnodup hp hq hk

/-- C5 (amended) — `cleanupSessions(maxAge)` removes exactly the sessions
with `now - lastActivityAt > maxAge` and `status != 'running'` (a running
session is never evicted regardless of age), but it does not return the
number of sessions removed: the TS method has no `return` statement, so the
caller receives `undefined`, not a count. -/
theorem cleanupSessions_removes_exactly_stale_nonrunning (reg : Registry)
    (now : Nat) (maxAge : Int) (hnodup : (reg.map Prod.fst).Nodup) :
    (cleanupSessions reg now maxAge).1
        = reg.filter (fun p => !(staleRemovable now maxAge p.2)) ∧
    (cleanupSessions reg now maxAge).2 = none := by
  refine ⟨?_, rfl⟩
  show ((reg.filter (fun p => staleRemovable now maxAge p.2)).map
      (fun p => p.1)).foldl deleteSession reg = _
  rw [foldl_deleteSession_eq_filter]
  refine List.filter_congr ?_
  intro p hp
  by_cases hc : staleRemovable now maxAge p.2 = true
  · have hmem : p.1 ∈ (reg.filter (fun p => staleRemovable now maxAge p.2)).map
        (fun p => p.1) :=
      List.mem_map_of_mem _ (List.mem_filter.2 ⟨hp, hc⟩)
    simp [hmem, hc]
  · have hnmem : p.1 ∉ (reg.filter (fun p => staleRemovable now maxAge p.2)).map
        (fun p => p.1) := by
      intro hmem
      rcases List.mem_map.1 hmem with ⟨q, hq, hqk⟩
      have hq1 := List.mem_filter.1 hq
      have heq := key_inj_of_nodup hnodup hq1.1 hp hqk
      subst heq
      exact hc hq1.2
    simp [hnmem, hc]

/-- Witness for C5 (amended) at the spec's stale-cleanup scenario: two idle
sessions aged 2 hours and one running session aged 2 hours, `maxAge` 1
hour — the idle sessions are removed, the running one is retained, and the
returned value is `none` (`undefined`), not a count. -/
theorem cleanupSessions_removes_exactly_stale_nonrunning_witness :
    (cleanupSessions
        [("a", ⟨"a", 0, 0, [], false, SessionStatus.idle, none⟩),
         ("b", ⟨"b", 0, 0, [], false, SessionStatus.running, none⟩),
         ("c", ⟨"c", 0, 0, [], false, SessionStatus.idle, none⟩)]
        7200000 3600000).1
      = [("a", ⟨"a", 0, 0, [], false, SessionStatus.idle, none⟩),
         ("b", ⟨"b", 0, 0, [], false, SessionStatus.running, none⟩),
         ("c", ⟨"c", 0, 0, [], false, SessionStatus.idle, none⟩)].filter
          (fun p => !(staleRemovable 7200000 3600000 p.2)) ∧
    (cleanupSessions
        [("a", ⟨"a", 0, 0, [], false, SessionStatus.idle, none⟩),
         ("b", ⟨"b", 0, 0, [], false, SessionStatus.running, none⟩),
         ("c", ⟨"c", 0, 0, [], false, SessionStatus.idle, none⟩)]
        7200000 3600000).2 = none :=
  cleanupSessions_removes_exactly_stale_nonrunning
    [("a", ⟨"a", 0, 0, [], false, SessionStatus.idle, none⟩),
     ("b", ⟨"b", 0, 0, [], false, SessionStatus.running, none⟩),
     ("c", ⟨"c", 0, 0, [], false, SessionStatus.idle, none⟩)]
    7200000 3600000 (by decide)

/-- C5 (counterexample) — At the spec's own scenario (two idle sessions and
one running session, all aged 2 hours, `maxAge` 1 hour) the eviction removes
the two idle sessions and keeps the running one, yet the call returns
`undefined` (`none`) rather than the removed count `2`: the claim's
"returns the number of sessions it removed" is false. -/
theorem cleanupSessions_scenario_returns_no_count :
    (cleanupSessions
        [("a", ⟨"a", 0, 0, [], false, SessionStatus.idle, none⟩),
         ("b", ⟨"b", 0, 0, [], false, SessionStatus.running, none⟩),
         ("c", ⟨"c", 0, 0, [], false, SessionStatus.idle, none⟩)]
        7200000 3600000).1
      = [("b", ⟨"b", 0, 0, [], false, SessionStatus.running, none⟩)] ∧
    (cleanupSessions
        [("a", ⟨"a", 0, 0, [], false, SessionStatus.idle, none⟩),
         ("b", ⟨"b", 0, 0, [], false, SessionStatus.running, none⟩),
         ("c", ⟨"c", 0, 0, [], false, SessionStatus.idle, none⟩)]
        7200000 3600000).2 ≠ some 2 := by
  refine ⟨by decide, by decide⟩

/-! ## Session-id generation -/

theorem decDigit_toNat_sub : ∀ a < 10, (decDigit a).toNat - 48 = a := by decide

theorem decDigit_ne_dash : ∀ a < 10, decDigit a ≠ '-' := by decide

theorem dash_not_mem_natDecimal (n : Nat) : '-' ∉ natDecimal n := by
  induction n using Nat.strong_induction_on with
  | _ n ih =>
      rw [natDecimal]
      split
      next h =>
        intro hmem
        exact decDigit_ne_dash n h (List.mem_singleton.1 hmem).symm
      next h =>
        intro hmem
        rcases List.mem_append.1 hmem with h1 | h2
        · exact ih (n / 10) (Nat.div_lt_self (by omega) (by omega)) h1
        · exact decDigit_ne_dash (n % 10) (Nat.mod_lt _ (by omega))
            (List.mem_singleton.1 h2).symm

theorem decValue_append_digit (l : List Char) (c : Char) :
    decValue (l ++ [c]) = decValue l * 10 + (c.toNat - 48) := by
  simp [decValue, List.foldl_append]

theorem decValue_natDecimal (n : Nat) : decValue (natDecimal n) = n := by
  induction n using Nat.strong_induction_on with
  | _ n ih =>
      rw [natDecimal]
      split
      next h =>
        simpa [decValue] using decDigit_toNat_sub n h
      next h =>
        rw [decValue_append_digit,
          ih (n / 10) (Nat.div_lt_self (by omega) (by omega)),
          decDigit_toNat_sub (n % 10) (Nat.mod_lt _ (by omega))]
        omega

theorem natDecimal_inj {a b : Nat} (h : natDecimal a = natDecimal b) : a = b := by
  have h2 := congrArg decValue h
  rwa [decValue_natDecimal, decValue_natDecimal] at h2

theorem append_dash_inj {a c b d : List Char} (ha : '-' ∉ a) (hc : '-' ∉ c)
    (h : a ++ '-' :: b = c ++ '-' :: d) : a = c ∧ b = d := by
  induction a generalizing c with
  | nil =>
      cases c with
      | nil => simpa using h
      | cons x cs =>
          simp only [List.nil_append, List.cons_append, List.cons.injEq] at h
          exact absurd (h.1 ▸ List.mem_cons_self x cs) hc
  | cons y as ih =>
      cases c with
      | nil =>
          simp only [List.nil_append, List.cons_append, List.cons.injEq] at h
          exact absurd (h.1 ▸ List.mem_cons_self y as) ha
      | cons x cs =>
          simp only [List.cons_append, List.cons.injEq] at h
          obtain ⟨h1, h2⟩ := h
          have ha2 : '-' ∉ as := fun hm => ha (List.mem_cons_of_mem _ hm)
          have hc2 : '-' ∉ cs := fun hm => hc (List.mem_cons_of_mem _ hm)
          obtain ⟨h3, h4⟩ := ih ha2 hc2 h2
          exact ⟨by rw [h1, h3], h4⟩

theorem generateSessionId_data (t : Nat) (r : String) :
    (generateSessionId t r).data
      = "claude".data ++ '-' :: (natDecimal t ++ '-' :: r.data) := by
  simp [generateSessionId, String.data_append]

/-- C7 (amended) — Generated session ids are injective in the environment
draws: two calls to `generateSessionId` produce the same id exactly when
both their `Date.now()` draws and their random-suffix draws coincide.
Hence the `N` ids of `N` creation calls are pairwise distinct provided the
`N` draw pairs are pairwise distinct — but the code performs no collision
check, so equal draws yield equal ids. -/
theorem generateSessionId_inj_iff (t₁ t₂ : Nat) (r₁ r₂ : String) :
    generateSessionId t₁ r₁ = generateSessionId t₂ r₂ ↔ (t₁ = t₂ ∧ r₁ = r₂) := by
  constructor
  · intro h
    have hd := congrArg String.data h
    rw [generateSessionId_data, generateSessionId_data] at hd
    have hd2 := List.append_cancel_left hd
    have hd3 : natDecimal t₁ ++ '-' :: r₁.data
        = natDecimal t₂ ++ '-' :: r₂.data := by
      simpa using hd2
    obtain ⟨hnd, hr⟩ := append_dash_inj (dash_not_mem_natDecimal t₁)
      (dash_not_mem_natDecimal t₂) hd3
    exact ⟨natDecimal_inj hnd, String.ext hr⟩
  · rintro ⟨rfl, rfl⟩
    rfl

/-- C7 (counterexample) — Two session-creation calls made in the same
millisecond that draw the same random suffix (possible: nothing enforces
distinct draws and the code performs no registry collision check) produce
the SAME id, and the second creation overwrites the first: after two
creations the registry holds one entry, so the ids of `N = 2` calls are not
pairwise distinct. -/
theorem createSession_same_draws_collide :
    (createSession [] 1700000000000
        (generateSessionId 1700000000000 "a1b2c3d") none none).1.id
      = (createSession
          (createSession [] 1700000000000
            (generateSessionId 1700000000000 "a1b2c3d") none none).2
          1700000000000
          (generateSessionId 1700000000000 "a1b2c3d") none none).1.id ∧
    (createSession
        (createSession [] 1700000000000
          (generateSessionId 1700000000000 "a1b2c3d") none none).2
        1700000000000
        (generateSessionId 1700000000000 "a1b2c3d") none none).2.length = 1 := by
  refine ⟨rfl, ?_⟩
  simp [createSession, setSession, jsOrStr]
